import Mathlib

/-!
# Verification of the GPS-track extraction engine (`nvtk_mp42gpx_v3.py`)

A shallow embedding of the decoding, geometry and track-normalization code
of `nvtk_mp42gpx_v3.py` (the Novatek MP4/TS dashcam GPS extractor), together
with theorems settling the specification claims about it.

Modelling conventions:
* Python `bytes` values are `List Nat` (each entry a byte value `0`..`255`).
* Python floats are idealized as exact arithmetic: `ℚ` for the packed-record
  and coordinate arithmetic, `ℝ` where the code calls `math.sin`/`cos`/etc.
* `datetime.datetime` values are idealized as their total-seconds
  linearization (a bijection on the valid range), so `datetime` subtraction
  becomes integer subtraction.
* The module-level globals (`videoStartTs`, `videoStartWrongAtoms`,
  `previousLatitude`, `previousLongitude`) become an explicit `SessionState`
  threaded through every function that reads or writes them.  Crucially the
  Python script never resets these globals between input files, so the state
  is threaded across file boundaries exactly as the interpreter would.
* Uncaught Python exceptions are `Except.error`; a routine that "returns
  None" to skip a region is `Except.ok (st, none)`.
-/

namespace Viofo

/-! ## Byte-level decoding helpers (`struct.unpack` formats) -/

/-- Read byte `i` of a byte string (uses of this helper in the embedding are
only evaluated at in-range indices, mirroring `struct.unpack_from` which
raises on an out-of-range read). -/
def byteAt (data : List Nat) (i : Nat) : Nat := data.getD i 0

/-- Models `struct.unpack_from('<I', data, off)`: little-endian unsigned 32-bit. -/
def u32le (data : List Nat) (off : Nat) : Nat :=
  byteAt data off + 256 * byteAt data (off + 1) +
    65536 * byteAt data (off + 2) + 16777216 * byteAt data (off + 3)

/-- Models `struct.unpack('>I', ...)`: big-endian unsigned 32-bit. -/
def u32be (data : List Nat) (off : Nat) : Nat :=
  16777216 * byteAt data off + 65536 * byteAt data (off + 1) +
    256 * byteAt data (off + 2) + byteAt data (off + 3)

/-- Computes `2 ^ k` for an integer exponent, as a rational. -/
def qpow2 (k : Int) : ℚ :=
  if 0 ≤ k then ((2 : ℚ) ^ k.toNat) else ((2 : ℚ) ^ (-k).toNat)⁻¹

/-- Value of an IEEE-754 single-precision float with bit pattern `w`
(`struct.unpack_from('<f', ...)` after assembling the 32-bit word).
A zero exponent with zero mantissa is IEEE `±0` (the subnormal formula
would give the same value `0`, the shortcut just keeps the term literal);
`e = 255` (infinities/NaNs) falls outside the modelled domain and is mapped
to `0`; no claim evaluates the embedding there. -/
def f32FromBits (w : Nat) : ℚ :=
  let s : Nat := w / 2 ^ 31
  let e : Nat := (w / 2 ^ 23) % 2 ^ 8
  let m : Nat := w % 2 ^ 23
  let sign : ℚ := if s = 1 then -1 else 1
  if e = 0 then (if m = 0 then 0 else sign * (m : ℚ) * qpow2 (-149))
  else if e = 255 then 0
  else sign * ((2 ^ 23 + m : ℕ) : ℚ) * qpow2 ((e : Int) - 150)

/-- Models `struct.unpack_from('<f', data, off)`. -/
def f32le (data : List Nat) (off : Nat) : ℚ :=
  f32FromBits (u32le data off)

/-- Python's `%` on numbers, for a positive right operand: the result lies
in `[0, m)` (sign of the divisor).  Used for `(bearing + correction) % 360`
and the fractional-coordinate split `coordinate % 100.0`. -/
def pyMod (x m : ℚ) : ℚ := x - m * (⌊x / m⌋ : ℤ)

/-! ## Calendar arithmetic (`datetime.datetime` model)

`datetime` values are represented by their total count of seconds from the
civil epoch 1970-01-01 00:00:00 (the standard `days_from_civil`
linearization).  This map is a strictly monotone bijection from valid
calendar date-times, so `datetime` subtraction and `timedelta` arithmetic
become integer arithmetic on the representation. -/

/-- Days from 1970-01-01 to the civil date `y-m-d` (Hinnant's algorithm). -/
def daysFromCivil (y m d : Int) : Int :=
  let y' := if m ≤ 2 then y - 1 else y
  let era := y'.fdiv 400
  let yoe := y' - era * 400
  let mp := if m ≤ 2 then m + 9 else m - 3
  let doy := (153 * mp + 2).fdiv 5 + d - 1
  let doe := yoe * 365 + yoe.fdiv 4 - yoe.fdiv 100 + doy
  era * 146097 + doe - 719468

/-- Total-seconds linearization of a calendar date-time. -/
def dtToSec (y mo d h mi s : Int) : Int :=
  daysFromCivil y mo d * 86400 + h * 3600 + mi * 60 + s

/-- Gregorian leap year (as `datetime` uses). -/
def isLeapYear (y : Int) : Bool :=
  y % 4 = 0 ∧ (y % 100 ≠ 0 ∨ y % 400 = 0)

/-- Number of days of month `m` in year `y`. -/
def daysInMonth (y m : Int) : Int :=
  if m = 2 then (if isLeapYear y then 29 else 28)
  else if m = 4 ∨ m = 6 ∨ m = 9 ∨ m = 11 then 30
  else 31

/-- Models `datetime.datetime(y, mo, d, h, mi, s)`: `none` models the `ValueError`
raised on out-of-range fields, otherwise the total-seconds value. -/
def mkDatetime (y mo d h mi s : Int) : Option Int :=
  if 1 ≤ y ∧ y ≤ 9999 ∧ 1 ≤ mo ∧ mo ≤ 12 ∧ 1 ≤ d ∧ d ≤ daysInMonth y mo ∧
      0 ≤ h ∧ h ≤ 23 ∧ 0 ≤ mi ∧ mi ≤ 59 ∧ 0 ≤ s ∧ s ≤ 59 then
    some (dtToSec y mo d h mi s)
  else none

/-! ## Pure coordinate / speed / bearing conversions -/

/-- Source `fix_coordinates(hemisphere, coordinate, deobfuscate)`: converts the
packed `DDDmm.mmmm` value to signed degrees (unless `deobfuscate`), then
applies the hemisphere sign. -/
def fix_coordinates (hemisphere : String) (coordinate : ℚ)
    (deobfuscate : Bool := false) : ℚ :=
  let coordinate :=
    if ¬deobfuscate then
      let minutes := pyMod coordinate 100
      let degrees := coordinate - minutes
      degrees / 100 + minutes / 60
    else coordinate
  if hemisphere = "S" ∨ hemisphere = "W" then -coordinate else coordinate

/-- Source `fix_speed(speed)`: knots to m/s. -/
def fix_speed (speed : ℚ) : ℚ := speed * (514444 / 1000000)

/-- Source `correct_bearing(bearing, bearingCorrection)`. -/
def correct_bearing (bearing : ℚ) (bearingCorrection : Int) : ℚ :=
  pyMod (bearing + bearingCorrection) 360

/-- Source `deobfuscate_coord(latitude, longitude)`. -/
def deobfuscate_coord (latitude longitude : ℚ) : ℚ × ℚ :=
  ((latitude - 18798217 / 100000) / 3, (longitude - 219919876 / 100000) * (1 / 2))

/-! ## Session state (the module-level globals)

The script keeps `videoStartTs`, `videoStartWrongAtoms`, `previousLatitude`
and `previousLongitude` as module globals; they are initialized once when
the module loads and never reset, so one `SessionState` value is threaded through
an entire multi-file run.  (`videoStartTsInfo`, a diagnostic message string,
is omitted: nothing reads it back into the computation.) -/

structure SessionState where
  videoStartTs : Option Int
  videoStartWrongAtoms : Nat
  previousLatitude : ℚ
  previousLongitude : ℚ
deriving DecidableEq, Repr

/-- The globals' values at interpreter start-up:
`videoStartTs = None`, `videoStartWrongAtoms = 0`,
`previousLatitude = previousLongitude = 0`. -/
def initialState : SessionState := ⟨none, 0, 0, 0⟩

/-- Constant `R = 6378.1`, radius of the Earth in km. -/
def RKm : ℚ := 63781 / 10

/-- Constant `d = 0.001`, step distance in km used by the bearing displacement. -/
def dKm : ℚ := 1 / 1000

/-- Constant `minimalDistance = 0.005` km (5 m). -/
def minimalDistance : ℚ := 5 / 1000

/-! ## Real-valued geometry (`math.sin` etc. idealized over ℝ) -/

/-- Models `math.radians`. -/
noncomputable def radiansR (x : ℝ) : ℝ := x * Real.pi / 180

/-- Models `math.degrees`. -/
noncomputable def degreesR (x : ℝ) : ℝ := x * 180 / Real.pi

/-- Models `math.atan2(y, x)`: the argument of the complex number `x + y·i`,
in `(-π, π]`, with `atan2 0 0 = 0` as in CPython. -/
noncomputable def atan2 (y x : ℝ) : ℝ := Complex.arg ⟨x, y⟩

/-- The haversine great-circle distance (km) computed inside
`isFrameFarEnoughFromPrevious` (Earth radius `R = 6378.1` km), between two
points given in signed degrees. -/
noncomputable def haversineKm (lat1d lon1d lat2d lon2d : ℚ) : ℝ :=
  let lat1 := radiansR (lat1d : ℝ)
  let lon1 := radiansR (lon1d : ℝ)
  let lat2 := radiansR (lat2d : ℝ)
  let lon2 := radiansR (lon2d : ℝ)
  let dlon := lon2 - lon1
  let dlat := lat2 - lat1
  let a := Real.sin (dlat / 2) ^ 2 +
    Real.cos lat1 * Real.cos lat2 * Real.sin (dlon / 2) ^ 2
  let c := 2 * atan2 (Real.sqrt a) (Real.sqrt (1 - a))
  ((RKm : ℚ) : ℝ) * c

open Classical in
/-- Source `isFrameFarEnoughFromPrevious(latitude, longitude)`: flags a sample
`"Y"`/`"N"` by distance from the previously accepted position, which it
maintains in the globals.  NOTE (faithful to the source): "no previous
sample yet" is detected by `previousLatitude == 0`, not by a dedicated
flag. -/
noncomputable def isFrameFarEnoughFromPrevious (st : SessionState)
    (latitude longitude : ℚ) : String × SessionState :=
  if st.previousLatitude = 0 then
    ("Y", { st with previousLatitude := latitude, previousLongitude := longitude })
  else if haversineKm st.previousLatitude st.previousLongitude latitude longitude
      > ((minimalDistance : ℚ) : ℝ) then
    ("Y", { st with previousLatitude := latitude, previousLongitude := longitude })
  else
    ("N", st)

/-- Source `distance_position_if_bearingCorrection(lat1, lon1, bearing,
bearingCorrection)`: with a zero correction returns the point unchanged;
otherwise projects 1 m backwards along the bearing and then 1 m along the
corrected bearing (spherical destination-point formula). -/
noncomputable def distance_position_if_bearingCorrection (lat1 lon1 : ℝ)
    (bearing : ℚ) (bearingCorrection : Int) : ℝ × ℝ :=
  if bearingCorrection = 0 then (lat1, lon1)
  else
    let dR : ℝ := ((dKm : ℚ) : ℝ) / ((RKm : ℚ) : ℝ)
    let bearing2 : ℚ := pyMod (bearing + 180) 360
    let lat1rad := radiansR lat1
    let lon1rad := radiansR lon1
    let lat2rad := Real.arcsin (Real.sin lat1rad * Real.cos dR +
      Real.cos lat1rad * Real.sin dR * Real.cos (radiansR ((bearing2 : ℚ) : ℝ)))
    let lon2rad := lon1rad + atan2
      (Real.sin (radiansR ((bearing2 : ℚ) : ℝ)) * Real.sin dR * Real.cos lat1rad)
      (Real.cos dR - Real.sin lat1rad * Real.sin lat2rad)
    let bearing3 : ℚ := pyMod (bearing + bearingCorrection) 360
    let lat3rad := Real.arcsin (Real.sin lat2rad * Real.cos dR +
      Real.cos lat2rad * Real.sin dR * Real.cos (radiansR ((bearing3 : ℚ) : ℝ)))
    let lon3rad := lon2rad + atan2
      (Real.sin (radiansR ((bearing3 : ℚ) : ℝ)) * Real.sin dR * Real.cos lat2rad)
      (Real.cos dR - Real.sin lat2rad * Real.sin lat3rad)
    (degreesR lat3rad, degreesR lon3rad)

/-! ## The GPS payload-marker search (`get_gps_offset`) -/

/-- Does position `p` of the region hold the `'A'{'N','S'}{'E','W'}` marker?
(`'A' = 65`, `'N' = 78`, `'S' = 83`, `'E' = 69`, `'W' = 87`; a byte ≥ 128
fails the single-byte decode in the source and then compares unequal, so
comparing raw byte values is equivalent.) -/
def markerAt (data : List Nat) (p : Nat) : Bool :=
  byteAt data p == 65 &&
    (byteAt data (p + 1) == 78 || byteAt data (p + 1) == 83) &&
    (byteAt data (p + 2) == 69 || byteAt data (p + 2) == 87)

/-- The backward scan of `get_gps_offset`: probes positions `n, n-1, ..., 1`
(the `while pointer > beginning` loop with `beginning = 0`) and returns the
first (i.e. highest) marker position found. -/
def scanPointer (data : List Nat) : Nat → Option Nat
  | 0 => none
  | p + 1 => if markerAt data (p + 1) then some (p + 1) else scanPointer data p

/-- Source `get_gps_offset(data)`: scans backward from `len(data) - 20`; on a hit
returns `pointer - 24`; on a miss returns `-1` and increments
`videoStartWrongAtoms` iff `videoStartTs` is still `None`. -/
def get_gps_offset (st : SessionState) (data : List Nat) : Int × SessionState :=
  match scanPointer data (data.length - 20) with
  | some p => ((p : Int) - 24, st)
  | none =>
    (-1, if st.videoStartTs = none then
      { st with videoStartWrongAtoms := st.videoStartWrongAtoms + 1 } else st)

/-! ## The decoded sample (the `gps` dict)

The write-only subfields `DT.Year` … `DT.Second` of the dict are not
modelled separately: only the composed date-time (field `DT`, here its
total-seconds linearization, the content of the formatted
`%Y-%m-%dT%H:%M:%SZ` string which is injective in it) is ever read back. -/

structure GpsSample where
  Epoch : Int
  DT : Int
  LatRaw : ℚ
  LatHemi : String
  LatFloat : ℝ
  LonRaw : ℚ
  LonHemi : String
  LonFloat : ℝ
  Speed : ℚ
  Bearing : ℚ
  FrameTimePosition : Int
  FrameIsFarEnough : String

/-- Source `convert_to_epoch`: `strptime` of the emitted timestamp string followed
by `mktime`.  On the linearized representation this is the identity (the
`mktime` local-time offset is idealized to zero; per the source's own
comment the epoch is only required to be internally consistent). -/
def convert_to_epoch (t : Int) : Int := t

/-! ## The obfuscated-ASCII ("azdome") decoder -/

/-- ASCII digit test. -/
def isDigit (c : Nat) : Bool := 48 ≤ c && c ≤ 57

/-- Value of a string of decimal digits. -/
def digitsToNat (l : List Nat) : Nat :=
  l.foldl (fun acc c => acc * 10 + (c - 48)) 0

/-- Python `int(s)` on the azdome field strings, restricted to plain
unsigned digit strings (the only shape a well-formed azdome payload
produces); `none` models the `ValueError` on anything else. -/
def parseInt (l : List Nat) : Option Int :=
  if l ≠ [] ∧ l.all isDigit then some (digitsToNat l) else none

/-- The `payload[a:b]` slice. -/
def slice (l : List Nat) (a b : Nat) : List Nat := (l.drop a).take (b - a)

/-- One-character string from a character code. -/
def charOf (c : Nat) : String := String.singleton (Char.ofNat c)

/-- Source `decode_azdome(gps, data)`: XOR-decodes the region with `0xAA`
and parses the six fixed-position date substrings (the `int(...)` parses
and the `datetime(...)` construction at line 340).  A `ValueError` there is
caught and aborts with `None`, the session state untouched.  The function
body assigns `videoStartTs` (line 342) without a `global videoStartTs`
declaration, which makes the name function-local in Python, so the *read*
`if videoStartTs is None` at line 341 raises `UnboundLocalError` — a
`NameError`, not caught by the `except ValueError` handler — on every
payload whose date fields parse to a valid date.  The decoder therefore
never returns a sample and never writes the global; lines 342–362
(coordinate/speed parsing, `fix_coordinates`, the far-enough filter) are
unreachable.  The crash is modelled as `Except.error`. -/
def decode_azdome (st : SessionState) (data : List Nat) :
    Except String (SessionState × Option GpsSample) :=
  let payload := data.map (Nat.xor · 170)
  match parseInt (slice payload 14 18), parseInt (slice payload 18 20),
      parseInt (slice payload 20 22), parseInt (slice payload 22 24),
      parseInt (slice payload 24 26), parseInt (slice payload 26 28) with
  | some y, some mo, some d, some h, some mi, some s =>
    match mkDatetime (y + 2000) mo d h mi s with
    | none => Except.ok (st, none)
    | some _ =>
      Except.error
        "UnboundLocalError: local variable videoStartTs referenced before assignment"
  | _, _, _, _, _, _ => Except.ok (st, none)

/-! ## The standard binary decoder (`get_gps_data`) -/

/-- Lines 440–448 of `get_gps_data`: assemble the date-time from the decoded
fields, subtract one second, set `videoStartTs` on the first success (to the
current timestamp minus `videoStartWrongAtoms` seconds) and compute
`FrameTimePosition`.  Returns `(state', emitted timestamp, frame time
position)`; `none` models the uncaught `ValueError` of
`datetime.datetime(...)` on out-of-range fields. -/
def stdAssembleTs (st : SessionState) (year month day hour minute second : Nat) :
    Option (SessionState × Int × Int) :=
  match mkDatetime ((year : Int) + 2000) month day hour minute second with
  | none => none
  | some t0 =>
    let cur := t0 - 1
    let st' := if st.videoStartTs = none then
      { st with videoStartTs := some (cur - st.videoStartWrongAtoms) } else st
    some (st', cur, cur - st'.videoStartTs.getD cur)

/-- The standard-binary decode block of `get_gps_data` (lines 409–462),
entered when the azdome decode did not succeed and the marker search
returned a non-negative offset `o`. -/
noncomputable def stdDecode (st2 : SessionState) (data : List Nat) (o : Nat)
    (deobfuscate : Bool) (bearingCorrection : Int) (doNotBearingDistance : Bool) :
    Except String (SessionState × Option GpsSample) :=
  let hour := u32le data o
  let minute := u32le data (o + 4)
  let second := u32le data (o + 8)
  let year := u32le data (o + 12)
  let month := u32le data (o + 16)
  let day := u32le data (o + 20)
  let active := byteAt data (o + 24)
  let latHemiB := byteAt data (o + 25)
  let lonHemiB := byteAt data (o + 26)
  let latRaw0 := f32le data (o + 28)
  let lonRaw0 := f32le data (o + 32)
  let speedRaw := f32le data (o + 36)
  let bearingRaw := f32le data (o + 40)
  if active < 128 ∧ latHemiB < 128 ∧ lonHemiB < 128 then
    let latHemi := charOf latHemiB
    let lonHemi := charOf lonHemiB
    let rawPair := if deobfuscate then deobfuscate_coord latRaw0 lonRaw0
      else (latRaw0, lonRaw0)
    match stdAssembleTs st2 year month day hour minute second with
    | none => Except.error "ValueError: invalid datetime fields"
    | some (st3, cur, ftp) =>
      let latF := fix_coordinates latHemi rawPair.1 deobfuscate
      let lonF := fix_coordinates lonHemi rawPair.2 deobfuscate
      let speed := fix_speed speedRaw
      let farSt := isFrameFarEnoughFromPrevious st3 latF lonF
      let outPos := if ¬doNotBearingDistance then
        distance_position_if_bearingCorrection (latF : ℝ) (lonF : ℝ)
          bearingRaw bearingCorrection
        else ((latF : ℝ), (lonF : ℝ))
      Except.ok (farSt.2, some {
        Epoch := convert_to_epoch cur
        DT := cur
        LatRaw := rawPair.1, LatHemi := latHemi, LatFloat := outPos.1
        LonRaw := rawPair.2, LonHemi := lonHemi, LonFloat := outPos.2
        Speed := speed
        Bearing := correct_bearing bearingRaw bearingCorrection
        FrameTimePosition := ftp
        FrameIsFarEnough := farSt.1 })
  else Except.ok (st2, none)

/-- Source `get_gps_data(data, deobfuscate, bearingCorrection,
doNotBearingDistance)`: the full region decoder.  `Except.error` marks an
uncaught Python exception; `ok (st, none)` is the "skip this region"
outcome.  When the leading byte selects the azdome decoder and that decoder
raises (see `decode_azdome`), the exception propagates out of this function
too.  The source's `if out: gps = out; azdome = True` branch can never be
taken, since `decode_azdome` never returns a value; it is kept here as the
(unreachable) `ok (st2, some _)` arm, which would fall into the
`else: return None` branch of `if not azdome and offset >= 0`. -/
noncomputable def get_gps_data (st : SessionState) (data : List Nat)
    (deobfuscate : Bool) (bearingCorrection : Int) (doNotBearingDistance : Bool) :
    Except String (SessionState × Option GpsSample) :=
  let offRes := get_gps_offset st data
  let offset := offRes.1
  let st1 := offRes.2
  if data.length = 0 then Except.error "struct.error: unpack requires 1 byte"
  else
    match (if byteAt data 0 = 5 ∨ byteAt data 0 = 240 then
        decode_azdome st1 data else Except.ok (st1, none)) with
    | Except.error e => Except.error e
    | Except.ok (st2, some _) => Except.ok (st2, none)
    | Except.ok (st2, none) =>
      if 0 ≤ offset then
        stdDecode st2 data offset.toNat deobfuscate bearingCorrection
          doNotBearingDistance
      else Except.ok (st2, none)

/-! ## Container scanning (MP4 `moov` walk) -/

/-- The read `file[pos : pos + size]`: the result of `seek(pos); read(size)` (a read
past end-of-file returns the available prefix, possibly empty). -/
def readBytes (file : List Nat) (pos size : Nat) : List Nat :=
  (file.drop pos).take size

/-- Models `bytes.decode()` of a 4-byte slice.  Four bytes that are all ASCII
decode to themselves; anything else is collapsed to `"UNKNOWN"` (a 4-byte
non-ASCII sequence may decode as multi-byte UTF-8 in Python or raise, but
every such outcome compares unequal to the ASCII atom-type and magic
constants the scanner tests against, so the collapse is observationally
equivalent here). -/
def decode4 (data : List Nat) (off : Nat) : String :=
  if (slice data off (off + 4)).all (· < 128) then
    String.mk ((slice data off (off + 4)).map Char.ofNat)
  else "UNKNOWN"

/-- Source `get_atom_info(eight_bytes)`: `(size, type)` of a top-level atom header;
a short read fails `struct.unpack` whose `struct.error` is caught and turned
into `(0, '')`. -/
def get_atom_info (bytes : List Nat) : Nat × String :=
  if bytes.length ≠ 8 then (0, "")
  else (u32be bytes 0, decode4 bytes 4)

/-- Source `get_gps_atom_info(eight_bytes)`: `(atom_pos, atom_size)` of one entry
of the `gps ` chunk descriptor.  (Uses of this in the embedding are guarded
by a length check modelling the uncaught `struct.error` on a short read.) -/
def get_gps_atom_info (eight : List Nat) : Nat × Nat :=
  (u32be eight 0, u32be eight 4)

/-- Source `get_gps_atom(gps_atom_info, in_fh, ...)`: reads the `free`/`GPS `
atom named by a descriptor entry, sanity-checks it, and hands the trimmed
payload to `get_gps_data`.  All three sanity-check failures (size mismatch,
wrong type, wrong magic — including an undecodable type/magic, whose
`UnicodeDecodeError` is caught) skip the entry with `None`. -/
noncomputable def get_gps_atom (st : SessionState) (file : List Nat)
    (atom_pos atom_size : Nat) (deobfuscate : Bool) (bearingCorrection : Int)
    (doNotBearingDistance : Bool) :
    Except String (SessionState × Option GpsSample) :=
  if atom_size = 0 ∨ atom_pos = 0 then Except.ok (st, none)
  else
    let data := readBytes file atom_pos atom_size
    if data.length < 12 then
      Except.error "struct.error: unpack_from requires 12 bytes"
    else
      let atom_size1 := u32be data 0
      let atom_type := decode4 data 4
      let magic := decode4 data 8
      if atom_size ≠ atom_size1 ∨ atom_type ≠ "free" ∨ magic ≠ "GPS " then
        Except.ok (st, none)
      else
        get_gps_data st (data.drop 12) deobfuscate bearingCorrection doNotBearingDistance

/-- The entry loop of the `gps ` chunk descriptor inside `parse_moov`
(`while gps_offset < sub_offset + sub_atom_size`): reads an 8-byte entry at
each position, decodes the referenced atom, appends the result (`None`
included) and moves 8 bytes on.  A short entry read models the uncaught
`struct.error` of `get_gps_atom_info(in_fh.read(8))`. -/
noncomputable def parse_gps_entries (file : List Nat) (deobfuscate : Bool)
    (bearingCorrection : Int) (doNotBearingDistance : Bool) (endPos : Nat)
    (st : SessionState) (gpsOffset : Nat) :
    Except String (SessionState × List (Option GpsSample)) :=
  if gpsOffset < endPos then
    if (readBytes file gpsOffset 8).length ≠ 8 then
      Except.error "struct.error: unpack requires 8 bytes"
    else
      match get_gps_atom st file
          (get_gps_atom_info (readBytes file gpsOffset 8)).1
          (get_gps_atom_info (readBytes file gpsOffset 8)).2
          deobfuscate bearingCorrection doNotBearingDistance with
      | Except.error e => Except.error e
      | Except.ok (st', s) =>
        match parse_gps_entries file deobfuscate bearingCorrection
            doNotBearingDistance endPos st' (gpsOffset + 8) with
        | Except.error e => Except.error e
        | Except.ok (st'', rest) => Except.ok (st'', s :: rest)
  else Except.ok (st, [])
termination_by endPos - gpsOffset

/-- The sub-atom walk of a `moov` atom (`while sub_offset < offset +
atom_size`): steps through second-level atoms, parsing the `gps ` chunk
descriptor when found.  `fuel` bounds the number of iterations: a sub-atom
whose size decodes to 0 makes the Python loop spin forever, which the model
reports as an error (no claim touches that case). -/
noncomputable def parse_moov_sub (file : List Nat) (deobfuscate : Bool)
    (bearingCorrection : Int) (doNotBearingDistance : Bool) (endPos : Nat) :
    Nat → SessionState → Nat → Except String (SessionState × List (Option GpsSample))
  | 0, _, _ => Except.error "model: iteration budget exhausted"
  | fuel + 1, st, subOffset =>
    if subOffset < endPos then
      if (get_atom_info (readBytes file subOffset 8)).2 = "gps " then
        match parse_gps_entries file deobfuscate bearingCorrection
            doNotBearingDistance
            (subOffset + (get_atom_info (readBytes file subOffset 8)).1)
            st (16 + subOffset) with
        | Except.error e => Except.error e
        | Except.ok (st', samples) =>
          match parse_moov_sub file deobfuscate bearingCorrection
              doNotBearingDistance endPos fuel st'
              (subOffset + (get_atom_info (readBytes file subOffset 8)).1) with
          | Except.error e => Except.error e
          | Except.ok (st'', rest) => Except.ok (st'', samples ++ rest)
      else
        parse_moov_sub file deobfuscate bearingCorrection doNotBearingDistance
          endPos fuel st (subOffset + (get_atom_info (readBytes file subOffset 8)).1)
    else Except.ok (st, [])

/-- The top-level atom walk of `parse_moov` (`while True`): reads `(size,
type)` headers at increasing offsets; a size that reads as zero (including
any short read) breaks the loop normally.  Returns the collected sample
list (`None` entries included, as the source appends them) and the
`is_moov` flag. -/
noncomputable def parse_moov_loop (file : List Nat) (deobfuscate : Bool)
    (bearingCorrection : Int) (doNotBearingDistance : Bool) :
    Nat → SessionState → Nat → Bool →
    Except String (SessionState × List (Option GpsSample) × Bool)
  | 0, _, _, _ => Except.error "model: iteration budget exhausted"
  | fuel + 1, st, offset, isMoov =>
    if (get_atom_info (readBytes file offset 8)).1 = 0 then
      Except.ok (st, [], isMoov)
    else if (get_atom_info (readBytes file offset 8)).2 = "moov" then
      match parse_moov_sub file deobfuscate bearingCorrection doNotBearingDistance
          (offset + (get_atom_info (readBytes file offset 8)).1) fuel st
          (offset + 8) with
      | Except.error e => Except.error e
      | Except.ok (st', samples) =>
        match parse_moov_loop file deobfuscate bearingCorrection
            doNotBearingDistance fuel st'
            (offset + (get_atom_info (readBytes file offset 8)).1) true with
        | Except.error e => Except.error e
        | Except.ok (st'', rest, m) => Except.ok (st'', samples ++ rest, m)
    else
      parse_moov_loop file deobfuscate bearingCorrection doNotBearingDistance
        fuel st (offset + (get_atom_info (readBytes file offset 8)).1) isMoov

/-- Source `parse_moov(in_fh, ...)`, starting at offset 0 with `is_moov = False`. -/
noncomputable def parse_moov (file : List Nat) (deobfuscate : Bool)
    (bearingCorrection : Int) (doNotBearingDistance : Bool) (fuel : Nat)
    (st : SessionState) :
    Except String (SessionState × List (Option GpsSample) × Bool) :=
  parse_moov_loop file deobfuscate bearingCorrection doNotBearingDistance
    fuel st 0 false

/-! ## Run-level processing (the `main` loop over input files)

`main` calls `process_file` once per input file and concatenates the
results.  The module globals — here the `SessionState` — are *not* reset
between calls, so the state produced by one file's scan flows into the
next file's scan.  `processRegions` models one file's scan at the level of
the candidate byte regions its container walk hands to `get_gps_data`;
`processFiles` chains the per-file scans exactly as the interpreter
does. -/

noncomputable def processRegions (deobfuscate : Bool) (bearingCorrection : Int)
    (doNotBearingDistance : Bool) (st : SessionState) :
    List (List Nat) → Except String (SessionState × List (Option GpsSample))
  | [] => Except.ok (st, [])
  | r :: rs =>
    match get_gps_data st r deobfuscate bearingCorrection doNotBearingDistance with
    | Except.error e => Except.error e
    | Except.ok (st', s) =>
      match processRegions deobfuscate bearingCorrection doNotBearingDistance st' rs with
      | Except.error e => Except.error e
      | Except.ok (st'', rest) => Except.ok (st'', s :: rest)

noncomputable def processFiles (deobfuscate : Bool) (bearingCorrection : Int)
    (doNotBearingDistance : Bool) (st : SessionState) :
    List (List (List Nat)) →
    Except String (SessionState × List (List (Option GpsSample)))
  | [] => Except.ok (st, [])
  | f :: fs =>
    match processRegions deobfuscate bearingCorrection doNotBearingDistance st f with
    | Except.error e => Except.error e
    | Except.ok (st', out) =>
      match processFiles deobfuscate bearingCorrection doNotBearingDistance st' fs with
      | Except.error e => Except.error e
      | Except.ok (st'', rest) => Except.ok (st'', out :: rest)

/-! ## Track normalization: outlier removal -/

/-- Source `calculate_speed(coord_dt1, coord_dt2)`: haversine distance (Earth
radius `6.3781E6` m, the `(1 - cos)/2` haversine form, `** 0.5` as the real
square root) divided by the absolute epoch difference; the
`ZeroDivisionError` on equal epochs is caught and yields `0.0`. -/
noncomputable def calculate_speed (c1 c2 : ℝ × ℝ × Int) : ℝ :=
  let lat1 := radiansR c1.1
  let lon1 := radiansR c1.2.1
  let lat2 := radiansR c2.1
  let lon2 := radiansR c2.2.1
  let hav_lat := (1 - Real.cos (lat2 - lat1)) / 2
  let hav_lon := (1 - Real.cos (lon2 - lon1)) / 2
  let hav_h := hav_lat + Real.cos lat1 * Real.cos lat2 * hav_lon
  let distance := 2 * (6378100 : ℝ) * Real.arcsin (Real.sqrt hav_h)
  if c2.2.2 = c1.2.2 then 0
  else distance / |((c2.2.2 - c1.2.2 : Int) : ℝ)|

open Classical in
/-- The synthetic reference point of `remove_outliers`: latitudes,
longitudes and epochs each collected and sorted independently, then indexed
at `int(len/2)`. -/
noncomputable def midPoint (l : List GpsSample) : ℝ × ℝ × Int :=
  let lats := (l.map (·.LatFloat)).mergeSort (fun a b => decide (a ≤ b))
  let lons := (l.map (·.LonFloat)).mergeSort (fun a b => decide (a ≤ b))
  let epochs := (l.map (·.Epoch)).mergeSort (fun a b => decide (a ≤ b))
  (lats.getD (l.length / 2) 0, lons.getD (l.length / 2) 0,
    epochs.getD (l.length / 2) 0)

open Classical in
/-- The retention loop of `remove_outliers`: a point survives unless its
implied speed from the fixed reference exceeds 1000 m/s. -/
noncomputable def removeLoop (mid : ℝ × ℝ × Int) :
    List GpsSample → List GpsSample
  | [] => []
  | s :: rest =>
    if calculate_speed mid (s.LatFloat, s.LonFloat, s.Epoch) > 1000 then
      removeLoop mid rest
    else s :: removeLoop mid rest

/-- Source `remove_outliers(gps_data)`. -/
noncomputable def remove_outliers (l : List GpsSample) : List GpsSample :=
  match l with
  | [] => []
  | _ => removeLoop (midPoint l) l

/-! ## Track normalization: duplicate merging -/

/-- Source `GetCenterFromDegrees(latArr, lonArr)`: spherical centroid — each point
to a 3-D unit vector, components averaged, converted back to degrees.  The
source's empty-array branch executes `return false`, an undefined name in
Python (`NameError`); it is unreachable from `merge_duplicates` and
modelled as `(0, 0)`. -/
noncomputable def GetCenterFromDegrees (latArr lonArr : List ℝ) : ℝ × ℝ :=
  if latArr.length = 0 then (0, 0)
  else
    let n : ℝ := latArr.length
    let pts := latArr.zip lonArr
    let X := (pts.map (fun p =>
      Real.cos (p.1 * Real.pi / 180) * Real.cos (p.2 * Real.pi / 180))).sum / n
    let Y := (pts.map (fun p =>
      Real.cos (p.1 * Real.pi / 180) * Real.sin (p.2 * Real.pi / 180))).sum / n
    let Z := (pts.map (fun p => Real.sin (p.1 * Real.pi / 180))).sum / n
    let lon := atan2 Y X
    let hyp := Real.sqrt (X * X + Y * Y)
    let lat := atan2 Z hyp
    (lat * 180 / Real.pi, lon * 180 / Real.pi)

/-- One step of the dict build of `merge_duplicates`: append the sample to
its timestamp's group, or start a new group (Python dicts preserve
insertion order). -/
def dictInsert (d : List (Int × List GpsSample)) (s : GpsSample) :
    List (Int × List GpsSample) :=
  if (d.lookup s.DT).isSome then
    d.map (fun kv => if kv.1 = s.DT then (kv.1, kv.2 ++ [s]) else kv)
  else d ++ [(s.DT, [s])]

/-- The grouping dict of `merge_duplicates`, keyed by the emitted timestamp
(equality of the formatted `%Y-%m-%dT%H:%M:%SZ` strings coincides with
equality of the underlying date-times, i.e. of the `DT` field). -/
def buildDict (l : List GpsSample) : List (Int × List GpsSample) :=
  l.foldl dictInsert []

noncomputable instance : Inhabited GpsSample :=
  ⟨⟨0, 0, 0, "", 0, 0, "", 0, 0, 0, 0, ""⟩⟩

/-- The merged sample built from a group of >1 duplicates: `values[0]` with
position replaced by the spherical centroid, speed and bearing by
arithmetic means, and the far-enough flag set iff some member had it. -/
noncomputable def mergeGroup (v0 : GpsSample) (values : List GpsSample) :
    GpsSample :=
  let c := GetCenterFromDegrees (values.map (·.LatFloat)) (values.map (·.LonFloat))
  { v0 with
    LatFloat := c.1
    LonFloat := c.2
    Speed := (values.map (·.Speed)).sum / (values.length : ℚ)
    Bearing := (values.map (·.Bearing)).sum / (values.length : ℚ)
    FrameIsFarEnough :=
      if values.any (·.FrameIsFarEnough = "Y") then "Y" else "N" }

/-- Source `merge_duplicates(gps_data)`.  (The source's early return on an empty
list yields the same empty result as the general path.) -/
noncomputable def merge_duplicates (l : List GpsSample) : List GpsSample :=
  (buildDict l).map (fun kv =>
    match kv.2 with
    | [v] => v
    | values => mergeGroup (values.headI) values)

/-! ## Concrete fixture regions and projections

Byte regions used to instantiate the claims.  Layout of a standard-variant
record starting at offset 0 (marker at 24): 3×u32 LE time, 3×u32 LE date,
`'A'` + hemisphere chars + pad, then four zero float32 fields. -/

/-- Hour 10, minute 0, second 0, year field 21 (=2021), month 1, day 9,
latitude hemisphere `'N'`, longitude hemisphere `'E'`, zero coordinates,
speed and bearing. -/
def regionA : List Nat :=
  [10, 0, 0, 0,  0, 0, 0, 0,  0, 0, 0, 0,
   21, 0, 0, 0,  1, 0, 0, 0,  9, 0, 0, 0,
   65, 78, 69, 0,
   0, 0, 0, 0,  0, 0, 0, 0,  0, 0, 0, 0,  0, 0, 0, 0]

/-- Like `regionA` but at second 5. -/
def regionB : List Nat :=
  [10, 0, 0, 0,  0, 0, 0, 0,  5, 0, 0, 0,
   21, 0, 0, 0,  1, 0, 0, 0,  9, 0, 0, 0,
   65, 78, 69, 0,
   0, 0, 0, 0,  0, 0, 0, 0,  0, 0, 0, 0,  0, 0, 0, 0]

/-- Like `regionA` but with leading byte `0x05` (hour 5): the region carries
the obfuscated-variant marker byte, its azdome decode fails (the XORed year
field is not a digit string), and it still holds a valid standard record
with the `'A''N''E'` marker at 24. -/
def regionC : List Nat :=
  [5, 0, 0, 0,  0, 0, 0, 0,  0, 0, 0, 0,
   21, 0, 0, 0,  1, 0, 0, 0,  9, 0, 0, 0,
   65, 78, 69, 0,
   0, 0, 0, 0,  0, 0, 0, 0,  0, 0, 0, 0,  0, 0, 0, 0]

/-- A region with the obfuscated-variant marker byte `0xF0`, a failing
azdome decode and no `'A'`-marker anywhere. -/
def regionD : List Nat := 240 :: List.replicate 43 0

/-- The timestamp emitted for `regionA`/`regionC`-style fields at hour `h`,
second `s`: assembled date-time minus the 1-second clock correction. -/
def emittedTs (h s : Nat) : Int := dtToSec 2021 1 9 h 0 s - 1

/-- The session state after decoding `regionA` first in a fresh run. -/
def stateAfterA : SessionState := ⟨some (emittedTs 10 0), 0, 0, 0⟩

/-- Projection of a run-level result onto the per-file lists of
`FrameTimePosition` values (`none` for a run that raised). -/
def ftpsOf (r : Except String (SessionState × List (List (Option GpsSample)))) :
    Option (List (List (Option Int))) :=
  match r with
  | Except.ok (_, outs) =>
    some (outs.map (fun out => out.map (fun s => s.map (·.FrameTimePosition))))
  | Except.error _ => none

/-- Insertion-ordered list of the distinct timestamp keys of a track: the
key order of the Python grouping dict of `merge_duplicates`. -/
def dtKeys (l : List GpsSample) : List Int :=
  l.foldl (fun ks s => if s.DT ∈ ks then ks else ks ++ [s.DT]) []

/-- The decidable (non-real-valued) fields of a sample, used to state
concrete decoding results: epoch, emitted timestamp, raw coordinates and
hemispheres, speed, bearing, frame time position and far-enough flag. -/
structure SampleView where
  epoch : Int
  dt : Int
  latRaw : ℚ
  latHemi : String
  lonRaw : ℚ
  lonHemi : String
  speed : ℚ
  bearing : ℚ
  ftp : Int
  far : String
deriving DecidableEq, Repr

/-- Projection of a sample onto its decidable fields. -/
def sampleData (s : GpsSample) : SampleView :=
  ⟨s.Epoch, s.DT, s.LatRaw, s.LatHemi, s.LonRaw, s.LonHemi, s.Speed,
    s.Bearing, s.FrameTimePosition, s.FrameIsFarEnough⟩

/-- Decidable view of a `get_gps_data` outcome. -/
def decodeView (r : Except String (SessionState × Option GpsSample)) :
    Option (SessionState × Option SampleView) :=
  match r with
  | Except.ok (st, s) => some (st, s.map sampleData)
  | Except.error _ => none

/-- The grouping of a track by identical timestamp, written as the claim
describes it: the distinct keys in insertion order, each paired with the
subsequence of samples carrying it. -/
def groupsByDT (l : List GpsSample) : List (Int × List GpsSample) :=
  (dtKeys l).map (fun k => (k, l.filter (fun s => s.DT == k)))

/-! ## Helper lemmas -/

/-- Python `%` on an integer value with a natural modulus agrees with
mathematical (Euclidean) `mod`. -/
theorem pyMod_intCast (n : ℤ) (d : ℕ) :
    pyMod (n : ℚ) (d : ℚ) = ((n % (d : ℤ) : ℤ) : ℚ) := by
  unfold pyMod
  rw [Rat.floor_intCast_div_natCast, Int.emod_def]
  push_cast
  ring

/-- Python `x % 100.0` extracts the minutes part of a well-formed packed
coordinate. -/
theorem pyMod_hundred (D : ℕ) (m : ℚ) (h0 : 0 ≤ m) (h1 : m < 100) :
    pyMod (100 * D + m) 100 = m := by
  unfold pyMod
  have hfloor : ⌊(100 * (D : ℚ) + m) / 100⌋ = (D : ℤ) := by
    rw [Int.floor_eq_iff]
    constructor
    · push_cast
      rw [le_div_iff₀ (by norm_num)]
      nlinarith
    · push_cast
      rw [div_lt_iff₀ (by norm_num)]
      nlinarith
  rw [hfloor]
  push_cast
  ring

theorem atan2_zero_one : atan2 0 1 = 0 := by
  unfold atan2
  have h : (⟨1, 0⟩ : ℂ) = 1 := rfl
  rw [h, Complex.arg_one]

theorem atan2_zero_zero : atan2 0 0 = 0 := by
  unfold atan2
  have h : (⟨0, 0⟩ : ℂ) = 0 := rfl
  rw [h, Complex.arg_zero]

/-- The haversine distance between identical points is zero. -/
theorem haversineKm_self (lat lon : ℚ) : haversineKm lat lon lat lon = 0 := by
  unfold haversineKm
  simp [atan2_zero_one]

end Viofo

namespace Viofo

/-! ## Claim C9: bearing correction is the mathematical modulus -/

/-- C9: for every integer bearing `b ∈ [0, 360)` and every integer
correction `c` (negative included), `correct_bearing b c` equals the
mathematical modulus `(b + c) mod 360`, with result in `[0, 360)`. -/
theorem correct_bearing_is_mod (b c : ℤ) (hb0 : 0 ≤ b) (hb : b < 360) :
    correct_bearing (b : ℚ) c = (((b + c) % 360 : ℤ) : ℚ) ∧
    0 ≤ correct_bearing (b : ℚ) c ∧ correct_bearing (b : ℚ) c < 360 := by
  have key : correct_bearing (b : ℚ) c = (((b + c) % 360 : ℤ) : ℚ) := by
    unfold correct_bearing
    have hcast : ((b : ℚ) + (c : ℚ)) = (((b + c : ℤ)) : ℚ) := by push_cast; ring
    have h360 : ((360 : ℕ) : ℚ) = (360 : ℚ) := by norm_num
    rw [hcast, ← h360, pyMod_intCast]
    norm_num
  refine ⟨key, ?_, ?_⟩
  · rw [key]
    exact_mod_cast Int.emod_nonneg _ (by norm_num)
  · rw [key]
    exact_mod_cast Int.emod_lt_of_pos _ (by norm_num)

/-- C9 witness. -/
theorem correct_bearing_is_mod_witness :
    (0 : ℤ) ≤ 350 ∧ (350 : ℤ) < 360 ∧
    correct_bearing (350 : ℚ) (-700) = (((350 - 700) % 360 : ℤ) : ℚ) := by
  refine ⟨by decide, by decide, ?_⟩
  have h := (correct_bearing_is_mod 350 (-700) (by decide) (by decide)).1
  simpa using h

/-! ## Claim C4: `fix_coordinates` on valid packed coordinates -/

/-- C4 counterexample: the claim as stated admits `DDD = 90` (the top of
the latitude degree range) with nonzero minutes, e.g. `raw = 9059.0 =
90*100 + 59` with hemisphere `'N'`; `fix_coordinates` then returns
`90 + 59/60 > 90`, outside `[-90, 90]`. -/
theorem fix_coordinates_counterexample :
    (9059 : ℚ) = 90 * 100 + 59 ∧ (0 : ℚ) ≤ 59 ∧ (59 : ℚ) < 60 ∧
    fix_coordinates "N" 9059 false = 90 + 59 / 60 ∧
    ¬ fix_coordinates "N" 9059 false ≤ 90 := by
  have hs : ¬ (("N" : String) = "S" ∨ ("N" : String) = "W") := by decide
  have hfl : ⌊(9059 : ℚ) / 100⌋ = 90 := by
    rw [Int.floor_eq_iff] <;> norm_num
  have hv : fix_coordinates "N" 9059 false = 90 + 59 / 60 := by
    unfold fix_coordinates pyMod
    rw [hfl, if_neg hs]
    norm_num
  refine ⟨by norm_num, by norm_num, by norm_num, hv, ?_⟩
  rw [hv]
  norm_num

/-- C4 (amended): for hemisphere/raw pairs of the form `raw = DDD*100 +
MM.MMMM`, `0 ≤ MM.MMMM < 60`, `fix_coordinates` with deobfuscation off
computes `minutes = raw mod 100`, `value = (raw - minutes)/100 +
minutes/60`, negates exactly for `'S'`/`'W'`, and the result is in
`[-90, 90]` (latitude) resp. `[-180, 180]` (longitude) with sign matching
the hemisphere — provided additionally that the *represented* coordinate
`DDD + MM.MMMM/60` does not exceed the hemisphere's range bound (which the
original claim's degree-range condition alone does not guarantee). -/
theorem fix_coordinates_amended (hemi : String) (D : ℕ) (m : ℚ)
    (h0 : 0 ≤ m) (h60 : m < 60) :
    pyMod (100 * D + m) 100 = m ∧
    fix_coordinates hemi (100 * D + m) false =
      (if hemi = "S" ∨ hemi = "W" then -1 else 1) *
        ((100 * D + m - pyMod (100 * D + m) 100) / 100 + pyMod (100 * D + m) 100 / 60) ∧
    ((hemi = "N" ∨ hemi = "S") → (D : ℚ) + m / 60 ≤ 90 →
      -90 ≤ fix_coordinates hemi (100 * D + m) false ∧
        fix_coordinates hemi (100 * D + m) false ≤ 90) ∧
    ((hemi = "E" ∨ hemi = "W") → (D : ℚ) + m / 60 ≤ 180 →
      -180 ≤ fix_coordinates hemi (100 * D + m) false ∧
        fix_coordinates hemi (100 * D + m) false ≤ 180) ∧
    ((hemi = "S" ∨ hemi = "W") → fix_coordinates hemi (100 * D + m) false ≤ 0) ∧
    ((hemi = "N" ∨ hemi = "E") → 0 ≤ fix_coordinates hemi (100 * D + m) false) := by
  have hmod : pyMod (100 * D + m) 100 = m :=
    pyMod_hundred D m h0 (lt_trans h60 (by norm_num))
  have hval : fix_coordinates hemi (100 * D + m) false =
      (if hemi = "S" ∨ hemi = "W" then -1 else 1) * ((D : ℚ) + m / 60) := by
    unfold fix_coordinates
    rw [hmod]
    by_cases hsw : hemi = "S" ∨ hemi = "W"
    · rw [if_pos hsw, if_pos hsw]
      norm_num
    · rw [if_neg hsw, if_neg hsw]
      norm_num
  have habs : (0 : ℚ) ≤ (D : ℚ) + m / 60 := by positivity
  refine ⟨hmod, ?_, ?_, ?_, ?_, ?_⟩
  · rw [hval, hmod]
    congr 1
    ring
  · intro _ hb
    rw [hval]
    by_cases hsw : hemi = "S" ∨ hemi = "W"
    · rw [if_pos hsw]
      constructor <;> nlinarith
    · rw [if_neg hsw]
      constructor <;> nlinarith
  · intro _ hb
    rw [hval]
    by_cases hsw : hemi = "S" ∨ hemi = "W"
    · rw [if_pos hsw]
      constructor <;> nlinarith
    · rw [if_neg hsw]
      constructor <;> nlinarith
  · intro hsw
    rw [hval]
    have hc : hemi = "S" ∨ hemi = "W" := by
      rcases hsw with h | h
      · exact Or.inl h
      · exact Or.inr h
    rw [if_pos hc]
    nlinarith
  · intro hne
    rw [hval]
    have hc : ¬ (hemi = "S" ∨ hemi = "W") := by
      rcases hne with h | h <;> subst h <;> decide
    rw [if_neg hc]
    nlinarith

/-! ## Claim C5: the far-enough distance filter -/

/-- C5 counterexample: the "no previous sample yet" test is
`previousLatitude == 0`, so in a stream starting at latitude exactly 0 the
second, *identical* sample is again treated as a first sample and flagged
`"Y"` — the claim says a second sample at the identical coordinate has
`is_far_enough = false`. -/
theorem isFrameFar_counterexample :
    (isFrameFarEnoughFromPrevious initialState 0 5).1 = "Y" ∧
    (isFrameFarEnoughFromPrevious
        (isFrameFarEnoughFromPrevious initialState 0 5).2 0 5).1 = "Y" ∧
    "Y" ≠ "N" := by
  refine ⟨?_, ?_, by decide⟩ <;>
    simp [isFrameFarEnoughFromPrevious, initialState]

/-- C5 (amended): a sample seen while the previously accepted latitude is
exactly `0` — in particular the first sample of a stream — is always
flagged `"Y"` and adopted as the previous accepted position; any other
sample is flagged `"Y"` and adopted exactly when its haversine distance
(Earth radius 6378.1 km) from the previous accepted position exceeds 5
meters, and otherwise flagged `"N"` and retained with the previous position
unchanged.  (The unamended per-stream claim fails because "first sample" is
detected by `previousLatitude == 0`, which also re-fires on any accepted
position of latitude exactly 0.) -/
theorem isFrameFar_amended (st : SessionState) (lat lon lat' lon' : ℚ)
    (h : st.previousLatitude ≠ 0) :
    (∀ st' : SessionState, st'.previousLatitude = 0 →
      isFrameFarEnoughFromPrevious st' lat' lon' =
        ("Y", { st' with previousLatitude := lat', previousLongitude := lon' })) ∧
    (haversineKm st.previousLatitude st.previousLongitude lat lon >
        ((minimalDistance : ℚ) : ℝ) →
      isFrameFarEnoughFromPrevious st lat lon =
        ("Y", { st with previousLatitude := lat, previousLongitude := lon })) ∧
    (¬ haversineKm st.previousLatitude st.previousLongitude lat lon >
        ((minimalDistance : ℚ) : ℝ) →
      isFrameFarEnoughFromPrevious st lat lon = ("N", st)) := by
  refine ⟨?_, ?_, ?_⟩
  · intro st' h0
    unfold isFrameFarEnoughFromPrevious
    rw [if_pos h0]
  · intro hfar
    unfold isFrameFarEnoughFromPrevious
    rw [if_neg h, if_pos hfar]
  · intro hnear
    unfold isFrameFarEnoughFromPrevious
    rw [if_neg h, if_neg hnear]

/-- C5 witness: a previous accepted position at latitude 1, revisited at the
identical coordinate — distance 0, not far enough, state unchanged. -/
theorem isFrameFar_amended_witness :
    ((⟨none, 0, 1, 7⟩ : SessionState).previousLatitude ≠ 0) ∧
    isFrameFarEnoughFromPrevious ⟨none, 0, 1, 7⟩ 1 7 = ("N", ⟨none, 0, 1, 7⟩) := by
  have h : (⟨none, 0, 1, 7⟩ : SessionState).previousLatitude ≠ 0 := by decide
  refine ⟨h, ?_⟩
  apply (isFrameFar_amended (⟨none, 0, 1, 7⟩ : SessionState) 1 7 0 0 h).2.2
  rw [haversineKm_self]
  simp [minimalDistance]
  norm_num

/-- C4 witness. -/
theorem fix_coordinates_amended_witness :
    (0 : ℚ) ≤ 30 ∧ (30 : ℚ) < 60 ∧
    fix_coordinates "S" (100 * (45 : ℕ) + 30) false =
      (if ("S" : String) = "S" ∨ ("S" : String) = "W" then -1 else 1) *
        ((100 * (45 : ℕ) + 30 - pyMod (100 * (45 : ℕ) + 30) 100) / 100 +
          pyMod (100 * (45 : ℕ) + 30) 100 / 60) := by
  refine ⟨by norm_num, by norm_num, ?_⟩
  exact (fix_coordinates_amended "S" 45 30 (by norm_num) (by norm_num)).2.1

/-! ## Claim C2: the backward marker search -/

/-- If no probed position carries the marker, the backward scan misses. -/
theorem scanPointer_eq_none (data : List Nat) (n : Nat)
    (h : ∀ p, p ≤ n → 0 < p → markerAt data p = false) :
    scanPointer data n = none := by
  induction n with
  | zero => rfl
  | succ k ih =>
    unfold scanPointer
    rw [if_neg (by simp [h (k + 1) le_rfl (Nat.succ_pos k)])]
    exact ih (fun p hp hp0 => h p (Nat.le_succ_of_le hp) hp0)

/-- The backward scan stops at the highest marker position in range. -/
theorem scanPointer_eq_some (data : List Nat) (n p : Nat)
    (hp0 : 0 < p) (hpn : p ≤ n) (hm : markerAt data p = true)
    (hmax : ∀ q, q ≤ n → p < q → markerAt data q = false) :
    scanPointer data n = some p := by
  induction n with
  | zero => omega
  | succ k ih =>
    unfold scanPointer
    by_cases hk : p = k + 1
    · subst hk
      rw [if_pos hm]
    · have hpk : p ≤ k := by omega
      have hknot : markerAt data (k + 1) = false := hmax (k + 1) le_rfl (by omega)
      rw [if_neg (by simp [hknot])]
      exact ih hpk (fun q hq hpq => hmax q (Nat.le_succ_of_le hq) hpq)

/-- C2: the marker search of the standard binary variant scans backward
from 20 bytes before the end of the region; it succeeds at the highest
probed position `p` holding `'A'` then a byte in `{'N','S'}` then a byte in
`{'E','W'}`, returning `p - 24` (the record start) with the state
untouched; when no probed position matches, it returns `-1` — the region is
skipped, never fatally — and increments the bad-region counter if and only
if the video start timestamp is still unset. -/
theorem get_gps_offset_spec (st : SessionState) (data : List Nat) (p : Nat)
    (deob : Bool) (bc : Int) (dnbd : Bool) :
    (0 < p → p ≤ data.length - 20 → markerAt data p = true →
      (∀ q, q ≤ data.length - 20 → p < q → markerAt data q = false) →
      get_gps_offset st data = ((p : Int) - 24, st)) ∧
    ((∀ q, q ≤ data.length - 20 → 0 < q → markerAt data q = false) →
      get_gps_offset st data = (-1,
        if st.videoStartTs = none then
          { st with videoStartWrongAtoms := st.videoStartWrongAtoms + 1 }
        else st)) ∧
    ((∀ q, q ≤ data.length - 20 → 0 < q → markerAt data q = false) →
      data.length ≠ 0 → ¬ (byteAt data 0 = 5 ∨ byteAt data 0 = 240) →
      get_gps_data st data deob bc dnbd =
        Except.ok ((if st.videoStartTs = none then
          { st with videoStartWrongAtoms := st.videoStartWrongAtoms + 1 }
        else st), none)) := by
  have hmiss : (∀ q, q ≤ data.length - 20 → 0 < q → markerAt data q = false) →
      get_gps_offset st data = (-1,
        if st.videoStartTs = none then
          { st with videoStartWrongAtoms := st.videoStartWrongAtoms + 1 }
        else st) := by
    intro hall
    unfold get_gps_offset
    rw [scanPointer_eq_none data _ hall]
  refine ⟨?_, hmiss, ?_⟩
  · intro hp0 hpn hm hmax
    unfold get_gps_offset
    rw [scanPointer_eq_some data _ p hp0 hpn hm hmax]
  · intro hall hlen haz
    have hoff := hmiss hall
    unfold get_gps_data
    rw [hoff]
    simp only [if_neg hlen]
    rw [if_neg haz]
    norm_num

/-- C2 witness: `regionA` has its only marker at position 24
(= `44 - 20`, the first probed position) and yields offset `0`; `regionD`
has no marker, yields `-1`, and bumps the bad-region counter of a fresh
session (video start timestamp unset). -/
theorem get_gps_offset_spec_witness :
    get_gps_offset initialState regionA = ((24 : Int) - 24, initialState) ∧
    get_gps_offset initialState regionD = (-1, ⟨none, 1, 0, 0⟩) := by
  constructor
  · exact (get_gps_offset_spec initialState regionA 24 false 0 false).1
      (by decide) (by decide) (by decide) (by decide)
  · have h := (get_gps_offset_spec initialState regionD 0 false 0 false).2.1
      (by decide)
    simpa using h

/-! ## Claim C3: timestamp assembly and frame time position -/

/-- C3 counterexample: with one pending bad region
(`videoStartWrongAtoms = 1`), the first successfully decoded sample's
`FrameTimePosition` is `+1` second, not `-1` second as the claim states
(the start timestamp is set *behind* the first sample, so the sample sits
*after* the start). -/
theorem stdAssembleTs_counterexample :
    (stdAssembleTs ⟨none, 1, 0, 0⟩ 21 1 9 10 0 0).map (fun r => r.2.2) =
      some 1 ∧ (1 : Int) ≠ -1 := by
  constructor
  · decide
  · decide

/-- C3 (amended): for every standard-variant sample, the emitted timestamp
is the date-time assembled from the year+2000/month/day/hour/minute/second
fields minus one second; on the first successfully decoded sample of a
stream the video start timestamp is set to that timestamp minus
`videoStartWrongAtoms` seconds; every sample's frame time position is its
timestamp minus the video start timestamp — hence the first sample's frame
time position is exactly `+videoStartWrongAtoms` seconds (normally 0), not
`-videoStartWrongAtoms` as claimed. -/
theorem stdAssembleTs_spec (st : SessionState)
    (year month day hour minute second : Nat) (t0 : Int)
    (h : mkDatetime ((year : Int) + 2000) month day hour minute second = some t0) :
    ∃ st' ftp, stdAssembleTs st year month day hour minute second =
        some (st', t0 - 1, ftp) ∧
      (st.videoStartTs = none →
        st'.videoStartTs = some ((t0 - 1) - st.videoStartWrongAtoms) ∧
        ftp = st.videoStartWrongAtoms) ∧
      (∀ v, st.videoStartTs = some v → st' = st ∧ ftp = (t0 - 1) - v) ∧
      (∀ w, st'.videoStartTs = some w → ftp = (t0 - 1) - w) := by
  have hunfold : stdAssembleTs st year month day hour minute second =
      some ((if st.videoStartTs = none then
          { st with videoStartTs := some ((t0 - 1) - st.videoStartWrongAtoms) }
        else st), t0 - 1,
        (t0 - 1) - ((if st.videoStartTs = none then
          { st with videoStartTs := some ((t0 - 1) - st.videoStartWrongAtoms) }
        else st).videoStartTs.getD (t0 - 1))) := by
    unfold stdAssembleTs
    rw [h]
  by_cases hst : st.videoStartTs = none
  · rw [if_pos hst] at hunfold
    refine ⟨_, _, hunfold, ?_, ?_, ?_⟩
    · intro _
      refine ⟨rfl, ?_⟩
      simp
    · intro v hv
      rw [hv] at hst
      exact absurd hst (by simp)
    · intro w hw
      simp at hw
      simp [← hw]
  · rw [if_neg hst] at hunfold
    obtain ⟨v, hv⟩ := Option.ne_none_iff_exists'.mp hst
    rw [hv, Option.getD_some] at hunfold
    refine ⟨_, _, hunfold, ?_, ?_, ?_⟩
    · intro hc
      exact absurd hc hst
    · intro v' hv'
      rw [hv'] at hv
      cases hv
      exact ⟨rfl, rfl⟩
    · intro w hw
      rw [hv] at hw
      cases hw
      rfl

/-- C3 witness: a fresh stream with 2 pending bad regions; the start
timestamp lands 2 seconds before the first sample and the first sample's
frame time position is `+2`. -/
theorem stdAssembleTs_spec_witness :
    mkDatetime ((21 : ℕ) + 2000) 1 9 10 0 0 = some (dtToSec 2021 1 9 10 0 0) ∧
    ∃ st' ftp, stdAssembleTs ⟨none, 2, 0, 0⟩ 21 1 9 10 0 0 =
        some (st', dtToSec 2021 1 9 10 0 0 - 1, ftp) ∧
      ((⟨none, 2, 0, 0⟩ : SessionState).videoStartTs = none →
        st'.videoStartTs =
          some ((dtToSec 2021 1 9 10 0 0 - 1) -
            (⟨none, 2, 0, 0⟩ : SessionState).videoStartWrongAtoms) ∧
        ftp = (⟨none, 2, 0, 0⟩ : SessionState).videoStartWrongAtoms) := by
  refine ⟨by decide, ?_⟩
  obtain ⟨st', ftp, h1, h2, -, -⟩ :=
    stdAssembleTs_spec ⟨none, 2, 0, 0⟩ 21 1 9 10 0 0
      (dtToSec 2021 1 9 10 0 0) (by decide)
  exact ⟨st', ftp, h1, h2⟩

/-! ## Claim C1: session state leaks between input files -/

/-- C1 (the code violates the claim): decoding the same single-region file
`[regionB]` yields a sample with `FrameTimePosition = 5` when the file is
processed after `[regionA]` (the run-global `videoStartTs` was set by the
earlier file) but `FrameTimePosition = 0` when it is processed first — the
per-file decode is *not* independent of previously processed files, because
the video-start timestamp, bad-region counter and previous-accepted
position are module globals that are never reset between files. -/
theorem state_leak_between_files :
    ftpsOf (processFiles false 0 false initialState [[regionA], [regionB]]) =
      some [[some 0], [some 5]] ∧
    ftpsOf (processFiles false 0 false initialState [[regionB]]) =
      some [[some 0]] ∧
    (5 : Int) ≠ 0 := by
  refine ⟨by decide, by decide, by decide⟩

/-! ## Claim C6: gps-descriptor entry validation and scan termination -/

/-- C6: an entry of the `gps ` chunk descriptor whose position or size is
zero, or whose referenced atom (with its 12-byte header readable) fails a
sanity check — decoded size different from the descriptor size, type not
`"free"`, or magic not `"GPS "` — makes `get_gps_atom` return `None`
without raising and without touching the session state; the descriptor
entry loop then appends that `None` and continues with the remaining
entries of the same file; and a top-level atom whose size reads as zero
(including the `(0, '')` produced by any truncated header read) ends the
`parse_moov` scan normally rather than raising. -/
theorem get_gps_atom_skip_spec
    (st st' : SessionState) (file : List Nat) (pos size : Nat)
    (deob : Bool) (bc : Int) (dnbd : Bool)
    (s : Option GpsSample) (endPos gpsOffset offset fuel : Nat) (m : Bool) :
    (size = 0 ∨ pos = 0 →
      get_gps_atom st file pos size deob bc dnbd = Except.ok (st, none)) ∧
    (12 ≤ (readBytes file pos size).length →
      (size ≠ u32be (readBytes file pos size) 0 ∨
        decode4 (readBytes file pos size) 4 ≠ "free" ∨
        decode4 (readBytes file pos size) 8 ≠ "GPS ") →
      get_gps_atom st file pos size deob bc dnbd = Except.ok (st, none)) ∧
    (gpsOffset < endPos →
      (readBytes file gpsOffset 8).length = 8 →
      get_gps_atom st file (get_gps_atom_info (readBytes file gpsOffset 8)).1
          (get_gps_atom_info (readBytes file gpsOffset 8)).2 deob bc dnbd =
        Except.ok (st', s) →
      parse_gps_entries file deob bc dnbd endPos st gpsOffset =
        (match parse_gps_entries file deob bc dnbd endPos st' (gpsOffset + 8) with
         | Except.error e => Except.error e
         | Except.ok (st'', rest) => Except.ok (st'', s :: rest))) ∧
    ((readBytes file offset 8).length < 8 →
      get_atom_info (readBytes file offset 8) = (0, "")) ∧
    ((get_atom_info (readBytes file offset 8)).1 = 0 →
      parse_moov_loop file deob bc dnbd (fuel + 1) st offset m =
        Except.ok (st, [], m)) := by
  refine ⟨?_, ?_, ?_, ?_, ?_⟩
  · intro h
    unfold get_gps_atom
    rw [if_pos h]
  · intro hlen hmis
    unfold get_gps_atom
    by_cases hz : size = 0 ∨ pos = 0
    · rw [if_pos hz]
    · rw [if_neg hz, if_neg (Nat.not_lt.mpr hlen), if_pos hmis]
  · intro hlt h8 hatom
    conv_lhs => unfold parse_gps_entries
    rw [if_pos hlt, if_neg (by rw [h8]; exact fun hc => hc rfl), hatom]
  · intro hshort
    unfold get_atom_info
    rw [if_pos (by omega)]
  · intro hz
    unfold parse_moov_loop
    rw [if_pos hz]

/-- C6 witness: a zero entry skips with `None`; the entry loop over an
8-byte descriptor span containing one zero entry appends that `None` and
recurses past it; an empty file reads atom size 0 and the top-level scan
ends normally. -/
theorem get_gps_atom_skip_spec_witness :
    get_gps_atom initialState [] 0 0 false 0 false =
      Except.ok (initialState, none) ∧
    parse_gps_entries (List.replicate 8 0) false 0 false 8 initialState 0 =
      (match parse_gps_entries (List.replicate 8 0) false 0 false 8 initialState 8 with
       | Except.error e => Except.error e
       | Except.ok (st'', rest) => Except.ok (st'', none :: rest)) ∧
    parse_moov_loop [] false 0 false 1 initialState 0 false =
      Except.ok (initialState, [], false) := by
  refine ⟨?_, ?_, ?_⟩
  · exact (get_gps_atom_skip_spec initialState initialState [] 0 0 false 0 false
      none 0 0 0 0 false).1 (Or.inl rfl)
  · exact (get_gps_atom_skip_spec initialState initialState (List.replicate 8 0)
      0 0 false 0 false none 8 0 0 0 false).2.2.1 (by decide) (by decide)
      ((get_gps_atom_skip_spec initialState initialState (List.replicate 8 0)
        0 0 false 0 false none 8 0 0 0 false).1 (Or.inl rfl))
  · exact (get_gps_atom_skip_spec initialState initialState [] 0 0 false 0 false
      none 0 0 0 0 false).2.2.2.2 (by decide)

/-! ## Claim C8: outlier removal against the synthetic median reference -/

open Classical in
/-- The retention loop drops exactly the samples whose implied speed from
the fixed reference exceeds 1000 m/s. -/
theorem removeLoop_eq_filter (mid : ℝ × ℝ × Int) (l : List GpsSample) :
    removeLoop mid l = l.filter (fun s =>
      decide (¬ calculate_speed mid (s.LatFloat, s.LonFloat, s.Epoch) > 1000)) := by
  induction l with
  | nil => rfl
  | cons s rest ih =>
    unfold removeLoop
    by_cases h : calculate_speed mid (s.LatFloat, s.LonFloat, s.Epoch) > 1000
    · rw [if_pos h, ih, List.filter_cons_of_neg (by simpa using h)]
    · rw [if_neg h, ih, List.filter_cons_of_pos (by simpa using h)]

open Classical in
/-- C8: for every non-empty track, `remove_outliers` uses the single
synthetic reference `midPoint` (element-wise medians of latitude,
longitude and epoch, each list sorted independently, so the reference need
not be an actual sample) and retains a sample exactly when the implied
speed — `calculate_speed`, the haversine distance from the reference
divided by the absolute epoch difference, `0` on a zero difference — does
not exceed 1000 m/s. -/
theorem remove_outliers_spec (l : List GpsSample) (hl : l ≠ []) :
    remove_outliers l = l.filter (fun s =>
      decide (¬ calculate_speed (midPoint l)
        (s.LatFloat, s.LonFloat, s.Epoch) > 1000)) ∧
    (∀ c1 c2 : ℝ × ℝ × Int, c2.2.2 = c1.2.2 → calculate_speed c1 c2 = 0) := by
  constructor
  · match l, hl with
    | s :: rest, _ =>
      show removeLoop (midPoint (s :: rest)) (s :: rest) = _
      exact removeLoop_eq_filter _ _
  · intro c1 c2 hdt
    unfold calculate_speed
    rw [if_pos hdt]

/-- C8 witness. -/
theorem remove_outliers_spec_witness :
    ([(default : GpsSample)] ≠ []) ∧
    remove_outliers [(default : GpsSample)] =
      List.filter (fun s =>
        decide (¬ calculate_speed (midPoint [(default : GpsSample)])
          (s.LatFloat, s.LonFloat, s.Epoch) > 1000)) [(default : GpsSample)] := by
  have h := (remove_outliers_spec [(default : GpsSample)]
    (List.cons_ne_nil _ _)).1
  exact ⟨List.cons_ne_nil _ _, h⟩

/-! ## Claim C7: duplicate merging -/

/-- Membership in the key-collecting fold. -/
theorem mem_keyFold (l : List GpsSample) (acc : List Int) (k : Int) :
    k ∈ l.foldl (fun ks s => if s.DT ∈ ks then ks else ks ++ [s.DT]) acc ↔
      k ∈ acc ∨ k ∈ l.map (·.DT) := by
  induction l generalizing acc with
  | nil => simp
  | cons s rest ih =>
    rw [List.foldl_cons, ih]
    by_cases hm : s.DT ∈ acc
    · rw [if_pos hm]
      simp only [List.map_cons, List.mem_cons]
      constructor
      · rintro (h | h)
        · exact Or.inl h
        · exact Or.inr (Or.inr h)
      · rintro (h | h | h)
        · exact Or.inl h
        · exact Or.inl (h ▸ hm)
        · exact Or.inr h
    · rw [if_neg hm]
      simp only [List.map_cons, List.mem_cons, List.mem_append,
        List.mem_singleton]
      tauto

/-- A key occurs in `dtKeys l` exactly when some sample of `l` carries it. -/
theorem mem_dtKeys (l : List GpsSample) (k : Int) :
    k ∈ dtKeys l ↔ k ∈ l.map (·.DT) := by
  unfold dtKeys
  rw [mem_keyFold]
  simp

/-- Appending one sample extends the key list exactly when its timestamp is
new. -/
theorem dtKeys_append_single (p : List GpsSample) (s : GpsSample) :
    dtKeys (p ++ [s]) =
      if s.DT ∈ dtKeys p then dtKeys p else dtKeys p ++ [s.DT] := by
  unfold dtKeys
  rw [List.foldl_append]
  rfl

/-- A `lookup` on a keyed `map` succeeds exactly on the listed keys. -/
theorem lookup_map_group (ks : List Int) (g : Int → List GpsSample) (k : Int) :
    ((ks.map (fun k' => (k', g k'))).lookup k).isSome = true ↔ k ∈ ks := by
  induction ks with
  | nil => simp
  | cons a ks ih =>
    by_cases h : k = a
    · subst h
      simp [List.lookup]
    · have hba : (k == a) = false := by simpa using h
      simp [List.lookup, hba, ih, h]

/-- One `dictInsert` step keeps the dict in grouped form. -/
theorem dictInsert_groupsByDT (p : List GpsSample) (s : GpsSample) :
    dictInsert (groupsByDT p) s = groupsByDT (p ++ [s]) := by
  unfold dictInsert
  by_cases hm : s.DT ∈ dtKeys p
  · rw [if_pos (by
      unfold groupsByDT
      exact (lookup_map_group (dtKeys p) _ s.DT).mpr hm)]
    unfold groupsByDT
    rw [dtKeys_append_single, if_pos hm, List.map_map]
    apply List.map_congr_left
    intro k hk
    by_cases hks : k = s.DT
    · subst hks
      simp [List.filter_append]
    · have hne : ¬ (s.DT == k) = true := by simpa using fun hc => hks hc.symm
      simp only [Function.comp_apply, if_neg hks, List.filter_append,
        List.filter_cons, hne, List.filter_nil, Bool.false_eq_true,
        ite_false, List.append_nil]
  · rw [if_neg (by
      unfold groupsByDT
      intro hc
      exact hm ((lookup_map_group (dtKeys p) _ s.DT).mp hc))]
    unfold groupsByDT
    rw [dtKeys_append_single, if_neg hm, List.map_append]
    congr 1
    · apply List.map_congr_left
      intro k hk
      have hne : ¬ (s.DT == k) = true := by
        simp only [beq_iff_eq]
        intro hc
        exact hm (hc ▸ hk)
      simp only [List.filter_append, List.filter_cons, hne,
        Bool.false_eq_true, ite_false, List.filter_nil, List.append_nil]
    · have hnone : p.filter (fun x => x.DT == s.DT) = [] := by
        rw [List.filter_eq_nil_iff]
        intro a ha hc
        apply hm
        rw [mem_dtKeys]
        exact List.mem_map.mpr ⟨a, ha, by simpa using hc⟩
      simp [List.filter_append, hnone]

/-- The dict build of `merge_duplicates` computes the grouped form. -/
theorem buildDict_eq (l : List GpsSample) : buildDict l = groupsByDT l := by
  have key : ∀ (l p : List GpsSample),
      l.foldl dictInsert (groupsByDT p) = groupsByDT (p ++ l) := by
    intro l
    induction l with
    | nil => intro p; simp
    | cons s rest ih =>
      intro p
      rw [List.foldl_cons, dictInsert_groupsByDT, ih]
      simp
  have h := key l []
  simpa [buildDict, groupsByDT, dtKeys] using h

/-- C7: `merge_duplicates` groups samples by identical emitted timestamp
(dict key = the formatted timestamp string, injective in the `DT` field);
a group of size 1 passes through unchanged, and a group of size > 1 is
replaced by a single sample — the group's first member with
latitude/longitude replaced by the spherical centroid
(`GetCenterFromDegrees`: 3-D unit vectors averaged and converted back),
speed and bearing by arithmetic means, and the far-enough flag `"Y"` iff
some member's flag was `"Y"`.  The final conjuncts exhibit the
observable difference from the arithmetic mean for points far apart in
longitude: the centroid of `(0°,0°)` and `(0°,180°)` has longitude `0`,
while the arithmetic mean of the longitudes is `90`. -/
theorem merge_duplicates_spec (l : List GpsSample) :
    merge_duplicates l = (dtKeys l).map (fun k =>
      if (l.filter (fun s => s.DT == k)).length = 1 then
        (l.filter (fun s => s.DT == k)).headI
      else
        { (l.filter (fun s => s.DT == k)).headI with
          LatFloat := (GetCenterFromDegrees
            ((l.filter (fun s => s.DT == k)).map (·.LatFloat))
            ((l.filter (fun s => s.DT == k)).map (·.LonFloat))).1
          LonFloat := (GetCenterFromDegrees
            ((l.filter (fun s => s.DT == k)).map (·.LatFloat))
            ((l.filter (fun s => s.DT == k)).map (·.LonFloat))).2
          Speed := ((l.filter (fun s => s.DT == k)).map (·.Speed)).sum /
            ((l.filter (fun s => s.DT == k)).length : ℚ)
          Bearing := ((l.filter (fun s => s.DT == k)).map (·.Bearing)).sum /
            ((l.filter (fun s => s.DT == k)).length : ℚ)
          FrameIsFarEnough :=
            if (l.filter (fun s => s.DT == k)).any (·.FrameIsFarEnough = "Y")
            then "Y" else "N" }) ∧
    (GetCenterFromDegrees [0, 0] [0, 180]).2 = 0 ∧
    ((0 : ℝ) + 180) / 2 = 90 ∧ (0 : ℝ) ≠ 90 := by
  refine ⟨?_, ?_, by norm_num, by norm_num⟩
  · unfold merge_duplicates
    rw [buildDict_eq]
    unfold groupsByDT
    rw [List.map_map]
    apply List.map_congr_left
    intro k hk
    simp only [Function.comp_apply]
    cases hfil : l.filter (fun s => s.DT == k) with
    | nil =>
      rw [if_neg (by simp)]
      rfl
    | cons v vs =>
      cases vs with
      | nil =>
        rw [if_pos (by simp)]
        rfl
      | cons v2 vs2 =>
        rw [if_neg (by simp)]
        rfl
  · unfold GetCenterFromDegrees
    rw [if_neg (by norm_num)]
    have h180 : (180 : ℝ) * Real.pi / 180 = Real.pi := by
      field_simp
    norm_num [List.zip_cons_cons, List.zip_nil_right, h180, Real.cos_pi,
      Real.sin_pi, Real.cos_zero, Real.sin_zero, atan2_zero_zero]

/-! ## Claim C10: format-variant selection is a fallback chain -/

unseal Rat.mul Rat.add Rat.inv Rat.sub in
/-- C10: `regionC` carries the obfuscated-variant marker byte `0x05`, its
azdome decode fails with a field parse error (returning `None` with the
state untouched — the only non-crashing outcome `decode_azdome` has, since
a parseable date raises an uncaught `UnboundLocalError` instead), the
backward marker search nevertheless ran and found the `'A''N''E'` pattern
at offset `24 - 24 = 0`, and `get_gps_data` returns the
standard-binary-variant sample decoded from the same region.  Moreover on
`regionD` (marker byte `0xF0`, no `'A'`-pattern) the marker search still
runs and its bad-region counting still fires: the counter is bumped even
though the region carries the obfuscated-variant marker byte. -/
theorem azdome_fallback_to_standard :
    byteAt regionC 0 = 5 ∧
    decode_azdome initialState regionC = Except.ok (initialState, none) ∧
    get_gps_offset initialState regionC = (0, initialState) ∧
    decodeView (get_gps_data initialState regionC false 0 false) =
      some (⟨some (emittedTs 5 0), 0, 0, 0⟩,
        some ⟨emittedTs 5 0, emittedTs 5 0, 0, "N", 0, "E", 0, 0, 0, "Y"⟩) ∧
    byteAt regionD 0 = 240 ∧
    decodeView (get_gps_data initialState regionD false 0 false) =
      some (⟨none, 1, 0, 0⟩, none) := by
  have h1 : byteAt regionC 0 = 5 := by decide
  have h2 : decode_azdome initialState regionC = Except.ok (initialState, none) := by
    rfl
  have h4 : get_gps_offset initialState regionC = (0, initialState) := by decide
  have h5 : decodeView (get_gps_data initialState regionC false 0 false) =
      some (⟨some (emittedTs 5 0), 0, 0, 0⟩,
        some ⟨emittedTs 5 0, emittedTs 5 0, 0, "N", 0, "E", 0, 0, 0, "Y"⟩) := by
    decide
  have h6 : byteAt regionD 0 = 240 := by decide
  have h7 : decodeView (get_gps_data initialState regionD false 0 false) =
      some (⟨none, 1, 0, 0⟩, none) := by decide
  exact ⟨h1, h2, h4, h5, h6, h7⟩

end Viofo
